import Mathlib

/-!
Verification of the KYC fraud-scoring pipeline.

Shallow embedding of the scoring core of `src/backend/main.py` and
`src/backend/predict.py`:

* Python floats are modelled as `ℚ`.
* A transform artifact (`feature_selector.pkl`, `scaler.pkl`) is an opaque
  `List ℚ → Option (List ℚ)`; `none` as a result models the Python call
  raising an exception.  An absent artifact is `Option.none` at the
  artifact slot itself (Python `None`, falsy under `if artifact:`).
* The classifier artifact (`best_model.pkl`) is an opaque
  `predict_proba : List ℚ → Option (List (List ℚ))`; `none` models a raise.
* The GNN fallback table (`output_of_GNN_part2.csv`) is a list of rows
  `(Document_Number, GNN_Fraud_Probability)`; the probability cell is
  `Option ℚ`, `none` modelling a cell on which Python `float(...)` raises.
* Python string helpers (`len`, `isdigit`, `set`, `split`, `isupper`) are
  modelled on Lean `String`; `isdigit`/`isupper` are modelled on the ASCII
  ranges, which agree with Python on all inputs relevant here.
* A Python function that can raise and whose exception escapes the function
  is modelled as `Option`/`Except` valued; a function whose internal
  `try/except` absorbs every exception is modelled total.
-/

/-- Risk bucket returned by the risk classifiers (`"Low"`/`"Medium"`/`"High"`). -/
inductive Risk where
  | Low : Risk
  | Medium : Risk
  | High : Risk
deriving DecidableEq, Repr

/-- Numeric severity of a risk bucket, used to state monotonicity. -/
def Risk.rank : Risk → ℕ
  | .Low => 0
  | .Medium => 1
  | .High => 2

/-- Verification status (`"Verified"`/`"Flagged"`). -/
inductive Status where
  | Verified : Status
  | Flagged : Status
deriving DecidableEq, Repr

/-- Python `s.isdigit()` (ASCII digits; `False` on the empty string). -/
def pyIsDigit (s : String) : Bool :=
  s.length != 0 && s.toList.all Char.isDigit

/-- Python `len(set(s))`: number of distinct characters of `s`. -/
def distinctChars (s : String) : ℕ :=
  s.toList.dedup.length

/-- Number of maximal runs of non-whitespace characters; `inWord` says whether
the previous character belonged to such a run. -/
def countWords : List Char → Bool → ℕ
  | [], _ => 0
  | c :: rest, inWord =>
      if c.isWhitespace then countWords rest false
      else (if inWord then 0 else 1) + countWords rest true

/-- Python `len(s.split())`: number of maximal nonempty whitespace-free runs. -/
def pyWordCount (s : String) : ℕ :=
  countWords s.toList false

/-- Python `any(x.isupper() for x in s)` (ASCII uppercase). -/
def anyUpper (s : String) : Bool :=
  s.toList.any Char.isUpper

/-- Python `any(x.isdigit() for x in s)` (ASCII digits). -/
def anyDigit (s : String) : Bool :=
  s.toList.any Char.isDigit

namespace Main

/-- Embedding of `main.extract_features(name, doc, address, dtype)`: the fixed 12-feature
encoding (the flattened row of the returned `1 × 12` array). -/
def extract_features (name doc address dtype : String) : List ℤ :=
  [ (name.length : ℤ),
    (doc.length : ℤ),
    (address.length : ℤ),
    if pyIsDigit doc then 1 else 0,
    (distinctChars doc : ℤ),
    if dtype = "AADHAR" then 1 else 0,
    if dtype = "PAN" then 1 else 0,
    if dtype = "PASSPORT" ∨ dtype = "UTILITY" then 1 else 0,
    (pyWordCount address : ℤ),
    (pyWordCount name : ℤ),
    if anyUpper name then 1 else 0,
    if anyDigit name then 1 else 0 ]

/-- Embedding of `main.classify(prob)`: risk buckets on the 0-1 probability scale. -/
def classify (prob : ℚ) : Risk :=
  if prob < 33/100 then .Low
  else if prob < 67/100 then .Medium
  else .High

/-- The GNN fallback table: rows of
`(Document_Number as string, GNN_Fraud_Probability cell)`; a `none` cell is
one on which `float(...)` raises. -/
abbrev FallbackTable := List (String × Option ℚ)

/-- Embedding of `main.gnn_pred(doc)`: fallback probability lookup.  Empty table, missing
key, and any lookup error all yield the neutral default `0.50`; the lookup is
an exact string match on the document number, taking the first matching row. -/
def gnn_pred (gnn_df : FallbackTable) (doc : String) : ℚ :=
  if gnn_df.isEmpty then 1/2
  else
    match gnn_df.find? (fun row => row.1 == doc) with
    | some row =>
        match row.2 with
        | some v => v
        | none => 1/2
    | none => 1/2

/-- An opaque transform artifact: `none` as a result models `transform` raising. -/
abbrev Transform := List ℚ → Option (List ℚ)

/-- The process-wide artifact slots of `main.py` (`feature_selector`,
`scaler`, `model`); each is `none` when loading failed at startup. -/
structure Artifacts where
  feature_selector : Option Transform
  scaler : Option Transform
  model : Option (List ℚ → Option (List (List ℚ)))

/-- One transform stage of `predict_fraud`: absent artifact is a no-op, and a
raising `transform` leaves the pre-stage vector unchanged (the bare
`except` only logs). -/
def applyStage (art : Option Transform) (X : List ℚ) : List ℚ :=
  match art with
  | none => X
  | some f =>
      match f X with
      | some Y => Y
      | none => X

/-- The feature vector after the two transform stages of `predict_fraud`,
selector first, then scaler. -/
def transformed (a : Artifacts) (X : List ℚ) : List ℚ :=
  applyStage a.scaler (applyStage a.feature_selector X)

/-- Shape resolution of `model.predict_proba` output in `predict_fraud`:
width 2 takes `proba_result[0][1]`, width 1 takes `proba_result[0][0]`, any
other width takes `proba_result[0][-1]`.  `none` models an `IndexError`
(no rows, or an empty row), which the surrounding `except` turns into
fallback. -/
def resolveProba (m : List (List ℚ)) : Option ℚ :=
  match m with
  | [] => none
  | r :: _ =>
      if r.length = 2 then r.get? 1
      else if r.length = 1 then r.get? 0
      else r.getLast?

/-- The integer feature vector seen as the rational vector handed to the
transform artifacts (numpy upcasts on the way in). -/
def featureVec (name doc address dtype : String) : List ℚ :=
  (extract_features name doc address dtype).map (fun n => (n : ℚ))

/-- The raw (pre-clamp) probability chosen by `predict_fraud`: the classifier
result when the model is present and its call and shape resolution succeed,
otherwise the GNN fallback. -/
def predict_raw (a : Artifacts) (gnn_df : FallbackTable)
    (name doc address dtype : String) : ℚ :=
  match a.model with
  | none => gnn_pred gnn_df doc
  | some m =>
      match m (transformed a (featureVec name doc address dtype)) with
      | none => gnn_pred gnn_df doc
      | some mat =>
          match resolveProba mat with
          | some p => p
          | none => gnn_pred gnn_df doc

/-- The probability `predict_fraud` buckets: the raw probability clamped by
`prob = max(0.0, min(1.0, prob))`. -/
def predict_prob (a : Artifacts) (gnn_df : FallbackTable)
    (name doc address dtype : String) : ℚ :=
  max 0 (min 1 (predict_raw a gnn_df name doc address dtype))

/-- The dictionary returned by `main.predict_fraud` (probability and
confidence are on the percent scale, as in the code). -/
structure ScoringOutput where
  fraud_probability : ℚ
  risk_level : Risk
  confidence : ℚ
  status : Status
deriving DecidableEq, Repr

/-- Embedding of `main.predict_fraud(name, doc, address, dtype)` for non-null string
arguments: extract features, apply selector then scaler (each optional and
failure-absorbing), score via classifier or GNN fallback, clamp, bucket. -/
def predict_fraud (a : Artifacts) (gnn_df : FallbackTable)
    (name doc address dtype : String) : ScoringOutput :=
  let prob := predict_prob a gnn_df name doc address dtype
  let risk := classify prob
  { fraud_probability := prob * 100
    risk_level := risk
    confidence := (1 - prob) * 100
    status := if risk = Risk.High then Status.Flagged else Status.Verified }

/-- Embedding of `main.VerificationRequest`: pydantic model; `address: Optional[str] = ""`
admits an explicit JSON `null`, modelled as `Option.none`. -/
structure VerificationRequest where
  name : String
  documentNumber : String
  address : Option String
  documentType : String

/-- The function `extract_features` as reached from a request: `len(None)` raises a
`TypeError` that nothing in `main.py` catches, so a `none` address yields
`none` (an escaped exception). -/
def extract_featuresReq (name doc : String) (address : Option String)
    (dtype : String) : Option (List ℤ) :=
  match address with
  | none => none
  | some ad => some (extract_features name doc ad dtype)

/-- The function `predict_fraud` as reached from a request: the `TypeError` on a `none`
address escapes `predict_fraud` too. -/
def predict_fraudReq (a : Artifacts) (gnn_df : FallbackTable)
    (req : VerificationRequest) : Option ScoringOutput :=
  match req.address with
  | none => none
  | some ad => some (predict_fraud a gnn_df req.name req.documentNumber ad req.documentType)

/-- The scoring-relevant part of `main.VerificationResponse`. -/
structure VerificationResponse where
  status : Status
  fraudProbability : ℚ
  riskLevel : Risk
  confidence : ℚ
  addressVerification : String
deriving DecidableEq, Repr

/-- The `/api/verify-kyc` handler `main.verify`: runs `predict_fraud`, then
attempts the audit append inside `try/except` (the `auditOk` flag says
whether that append succeeds; failure is only logged), then builds the
response from the scoring result alone. -/
def verify (a : Artifacts) (gnn_df : FallbackTable)
    (req : VerificationRequest) (auditOk : Bool) : Option VerificationResponse :=
  match predict_fraudReq a gnn_df req with
  | none => none
  | some result =>
      let _ := auditOk
      some
        { status := result.status
          fraudProbability := result.fraud_probability
          riskLevel := result.risk_level
          confidence := result.confidence
          addressVerification :=
            match req.address with
            | some ad => if ad ≠ "" ∧ ad.length > 10 then "Verified" else "Pending"
            | none => "Pending" }

end Main

namespace Predict

/-- Embedding of `predict.extract_features(name, doc_number, address, doc_type)`: same
field-derived features as the main backend, but the one-hot block is built
from `doc_map = {AADHAR: 0, PAN: 1, UTILITY: 2}` — `PASSPORT` is not in the
map, so it yields an all-zero one-hot. -/
def extract_features (name doc_number address doc_type : String) : List ℤ :=
  [ (name.length : ℤ),
    (doc_number.length : ℤ),
    (address.length : ℤ),
    if pyIsDigit doc_number then 1 else 0,
    (distinctChars doc_number : ℤ),
    if doc_type = "AADHAR" then 1 else 0,
    if doc_type = "PAN" then 1 else 0,
    if doc_type = "UTILITY" then 1 else 0,
    (pyWordCount address : ℤ),
    (pyWordCount name : ℤ),
    if anyUpper name then 1 else 0,
    if anyDigit name then 1 else 0 ]

/-- Embedding of `predict.classify_risk(prob)`: risk buckets on the 0-100 percent scale,
with thresholds `33` and `66`. -/
def classify_risk (prob : ℚ) : Risk :=
  if prob < 33 then .Low
  else if prob < 66 then .Medium
  else .High

/-- The classifier artifact as seen by `predict.py`: either it has
`predict_proba` (used when `hasProba`) or only `predict`; `none` results
model raises. -/
structure PModel where
  hasProba : Bool
  proba : List ℚ → Option (List (List ℚ))
  predictClasses : List ℚ → Option (List ℤ)

/-- Python `round(q, 2)`, modelled as rounding to the nearest hundredth
(ties differ from Python only at exact half-hundredths, which no claim
touches). -/
def round2 (q : ℚ) : ℚ :=
  ((round (q * 100) : ℤ) : ℚ) / 100

/-- The integer feature vector of `predict.py` seen as the rational vector
handed to the transform artifacts. -/
def featureVec (name doc_number address doc_type : String) : List ℚ :=
  (extract_features name doc_number address doc_type).map (fun n => (n : ℚ))

/-- The dictionary returned by `predict.run_model_prediction` (percent scale). -/
structure PredResult where
  fraud_probability : ℚ
  fraud_risk : Risk
  confidence : ℚ
deriving DecidableEq, Repr

/-- A transform stage in `predict.py`: there is no `try/except`, so a raise
escapes `run_model_prediction`. -/
def liftStage (art : Option Main.Transform) (X : List ℚ) :
    Except String (List ℚ) :=
  match art with
  | none => .ok X
  | some f =>
      match f X with
      | some Y => .ok Y
      | none => .error "transform raised"

/-- Embedding of `predict.run_model_prediction`: features, selector, scaler (no exception
handling), then the model; when the model is `None` it raises
`ValueError("Model not loaded. ...")`, otherwise it indexes
`predict_proba(X)[0][1]` (or falls back to `predict(X)[0]` mapped to 80/20),
scales to percent, rounds, and buckets with `classify_risk`. -/
def run_model_prediction (model : Option PModel)
    (selector scaler : Option Main.Transform)
    (name doc_number address doc_type : String) : Except String PredResult :=
  match liftStage selector (featureVec name doc_number address doc_type) with
  | .error e => .error e
  | .ok X1 =>
      match liftStage scaler X1 with
      | .error e => .error e
      | .ok X2 =>
          match model with
          | none => .error "Model not loaded. Please ensure best_model.pkl exists."
          | some m =>
              if m.hasProba then
                match m.proba X2 with
                | none => .error "predict_proba raised"
                | some mat =>
                    match mat.get? 0 with
                    | none => .error "IndexError"
                    | some row =>
                        match row.get? 1 with
                        | none => .error "IndexError"
                        | some p =>
                            let prob := round2 (p * 100)
                            .ok { fraud_probability := prob
                                  fraud_risk := classify_risk prob
                                  confidence := round2 (100 - prob) }
              else
                match m.predictClasses X2 with
                | none => .error "predict raised"
                | some preds =>
                    match preds.get? 0 with
                    | none => .error "IndexError"
                    | some pred =>
                        let prob : ℚ := round2 (if pred = 1 then 80 else 20)
                        .ok { fraud_probability := prob
                              fraud_risk := classify_risk prob
                              confidence := round2 (100 - prob) }

end Predict

/-! Helper lemmas shared by several claims. -/

/-- The clamp `max 0 (min 1 p)` is nonnegative. -/
theorem clamp_nonneg (p : ℚ) : 0 ≤ max 0 (min 1 p) :=
  le_max_left _ _

/-- The clamp `max 0 (min 1 p)` is at most one. -/
theorem clamp_le_one (p : ℚ) : max 0 (min 1 p) ≤ 1 :=
  max_le (by norm_num) (min_le_left _ _)

/-- Clamping never changes the risk bucket: out-of-range values land in the
same bucket as their clamped image. -/
theorem classify_clamp (p : ℚ) :
    Main.classify (max 0 (min 1 p)) = Main.classify p := by
  unfold Main.classify
  rcases le_or_lt p 0 with h0 | h0
  · rw [min_eq_right (by linarith), max_eq_left h0]
    split_ifs <;> first | rfl | linarith
  · rcases le_or_lt 1 p with h1 | h1
    · rw [min_eq_left h1, max_eq_right zero_le_one]
      split_ifs <;> first | rfl | linarith
    · rw [min_eq_right h1.le, max_eq_right h0.le]

/-- Bucket characterization of `main.classify`: the Low bucket. -/
theorem classify_eq_low (p : ℚ) : Main.classify p = Risk.Low ↔ p < 33/100 := by
  unfold Main.classify
  split_ifs <;> simp_all

/-- Bucket characterization of `main.classify`: the Medium bucket. -/
theorem classify_eq_medium (p : ℚ) :
    Main.classify p = Risk.Medium ↔ 33/100 ≤ p ∧ p < 67/100 := by
  unfold Main.classify
  split_ifs <;> simp_all

/-- Bucket characterization of `main.classify`: the High bucket. -/
theorem classify_eq_high (p : ℚ) : Main.classify p = Risk.High ↔ 67/100 ≤ p := by
  unfold Main.classify
  split_ifs <;> simp_all
  linarith

/-- Bucket characterization of `predict.classify_risk`: the Low bucket. -/
theorem classify_risk_eq_low (p : ℚ) :
    Predict.classify_risk p = Risk.Low ↔ p < 33 := by
  unfold Predict.classify_risk
  split_ifs <;> simp_all

/-- Bucket characterization of `predict.classify_risk`: the Medium bucket. -/
theorem classify_risk_eq_medium (p : ℚ) :
    Predict.classify_risk p = Risk.Medium ↔ 33 ≤ p ∧ p < 66 := by
  unfold Predict.classify_risk
  split_ifs <;> simp_all

/-- Bucket characterization of `predict.classify_risk`: the High bucket. -/
theorem classify_risk_eq_high (p : ℚ) :
    Predict.classify_risk p = Risk.High ↔ 66 ≤ p := by
  unfold Predict.classify_risk
  split_ifs <;> simp_all
  linarith

/-- Monotonicity of `main.classify` in the probability. -/
theorem classify_mono {p q : ℚ} (h : p ≤ q) :
    (Main.classify p).rank ≤ (Main.classify q).rank := by
  unfold Main.classify
  split_ifs <;> simp [Risk.rank] <;> linarith

/-- Monotonicity of `predict.classify_risk` in the probability. -/
theorem classify_risk_mono {p q : ℚ} (h : p ≤ q) :
    (Predict.classify_risk p).rank ≤ (Predict.classify_risk q).rank := by
  unfold Predict.classify_risk
  split_ifs <;> simp [Risk.rank] <;> linarith

/-! The claims. -/

/-- C2 counterexample: the claim puts the Medium/High boundary of every risk
classifier at probability 0.67, but `predict.classify_risk` on the 0-100
scale already returns High at 66, i.e. at probability 0.66 < 0.67. -/
theorem C2_counterexample :
    Predict.classify_risk 66 = Risk.High
    ∧ Predict.classify_risk 66 ≠ Risk.Medium
    ∧ (66 : ℚ) / 100 < 67 / 100 := by
  refine ⟨?_, ?_, by norm_num⟩ <;> unfold Predict.classify_risk <;> norm_num
  decide

/-- C2 (amended): both risk classifiers are total into {Low, Medium, High} and
monotonically non-decreasing, with half-open buckets whose boundary values
belong to the upper bucket; `main.classify` has thresholds 0.33 and 0.67 on
the 0-1 scale, while `predict.classify_risk` has thresholds 33 and 66 on the
0-100 scale (so its High boundary is 66, not 67). -/
theorem C2_amended (p q : ℚ) (hpq : p ≤ q) :
    ((Main.classify p).rank ≤ (Main.classify q).rank
      ∧ (Predict.classify_risk p).rank ≤ (Predict.classify_risk q).rank)
    ∧ ((Main.classify p = Risk.Low ↔ p < 33/100)
      ∧ (Main.classify p = Risk.Medium ↔ 33/100 ≤ p ∧ p < 67/100)
      ∧ (Main.classify p = Risk.High ↔ 67/100 ≤ p))
    ∧ ((Predict.classify_risk p = Risk.Low ↔ p < 33)
      ∧ (Predict.classify_risk p = Risk.Medium ↔ 33 ≤ p ∧ p < 66)
      ∧ (Predict.classify_risk p = Risk.High ↔ 66 ≤ p)) :=
  ⟨⟨classify_mono hpq, classify_risk_mono hpq⟩,
   ⟨classify_eq_low p, classify_eq_medium p, classify_eq_high p⟩,
   ⟨classify_risk_eq_low p, classify_risk_eq_medium p, classify_risk_eq_high p⟩⟩

/-- C2 witness: boundary values, concretely. -/
theorem C2_amended_witness :
    Main.classify (33/100) = Risk.Medium
    ∧ Main.classify (67/100) = Risk.High
    ∧ Predict.classify_risk 66 = Risk.High
    ∧ (Main.classify (33/100)).rank ≤ (Main.classify (67/100)).rank :=
  ⟨((C2_amended (33/100) 1 (by norm_num)).2.1.2.1).mpr (by norm_num),
   ((C2_amended (67/100) 1 (by norm_num)).2.1.2.2).mpr (by norm_num),
   ((C2_amended 66 66 (le_refl _)).2.2.2.2).mpr (by norm_num),
   (C2_amended (33/100) (67/100) (by norm_num)).1.1⟩

/-- C8 counterexample: the claimed feature vector is wrong at the 5th slot —
`len(set("123456789"))` is 9 distinct characters, not 8. -/
theorem C8_counterexample :
    Main.extract_features "John Doe" "123456789" "123 Main St" "PASSPORT"
      ≠ [8, 9, 11, 1, 8, 0, 0, 1, 3, 2, 1, 0] := by
  decide

/-- C8 (amended): for the request name="John Doe", documentNumber="123456789",
address="123 Main St", documentType=PASSPORT the feature vector is
[8, 9, 11, 1, 9, 0, 0, 1, 3, 2, 1, 0]; with no artifacts loaded and an empty
fallback table the pipeline scores the clamped probability 0.50 (reported as
50.0 on the percent scale), riskLevel Medium, status Verified. -/
theorem C8_amended :
    Main.extract_features "John Doe" "123456789" "123 Main St" "PASSPORT"
      = [8, 9, 11, 1, 9, 0, 0, 1, 3, 2, 1, 0]
    ∧ Main.predict_prob ⟨none, none, none⟩ [] "John Doe" "123456789" "123 Main St" "PASSPORT" = 1/2
    ∧ (Main.predict_fraud ⟨none, none, none⟩ [] "John Doe" "123456789" "123 Main St" "PASSPORT").fraud_probability = 50
    ∧ (Main.predict_fraud ⟨none, none, none⟩ [] "John Doe" "123456789" "123 Main St" "PASSPORT").risk_level = Risk.Medium
    ∧ (Main.predict_fraud ⟨none, none, none⟩ [] "John Doe" "123456789" "123 Main St" "PASSPORT").status = Status.Verified := by
  have hraw : Main.predict_raw ⟨none, none, none⟩ [] "John Doe" "123456789" "123 Main St" "PASSPORT" = 1/2 := rfl
  have hprob : Main.predict_prob ⟨none, none, none⟩ [] "John Doe" "123456789" "123 Main St" "PASSPORT" = 1/2 := by
    unfold Main.predict_prob
    rw [hraw]
    norm_num
  have hm : Main.classify (1/2) = Risk.Medium := (classify_eq_medium _).mpr (by norm_num)
  refine ⟨by decide, hprob, ?_, ?_, ?_⟩
  · show Main.predict_prob ⟨none, none, none⟩ [] "John Doe" "123456789" "123 Main St" "PASSPORT" * 100 = 50
    rw [hprob]
    norm_num
  · show Main.classify (Main.predict_prob ⟨none, none, none⟩ [] "John Doe" "123456789" "123 Main St" "PASSPORT") = Risk.Medium
    rw [hprob]
    exact hm
  · show (if Main.classify (Main.predict_prob ⟨none, none, none⟩ [] "John Doe" "123456789" "123 Main St" "PASSPORT") = Risk.High
        then Status.Flagged else Status.Verified) = Status.Verified
    rw [hprob, hm]
    rfl

/-- C9: divergence between the two feature extractors at documentType
PASSPORT — `main.extract_features` sets the third one-hot slot (index 7) to 1
for PASSPORT, while `predict.extract_features` (whose comment says it is the
same as the main backend) leaves it 0, because its `doc_map` only contains
AADHAR, PAN and UTILITY. -/
theorem C9_bug :
    Main.extract_features "John Doe" "123456789" "123 Main St" "PASSPORT"
      ≠ Predict.extract_features "John Doe" "123456789" "123 Main St" "PASSPORT"
    ∧ (Main.extract_features "John Doe" "123456789" "123 Main St" "PASSPORT").get? 7 = some 1
    ∧ (Predict.extract_features "John Doe" "123456789" "123 Main St" "PASSPORT").get? 7 = some 0 := by
  decide

/-- C4: the fallback lookup `gnn_pred` returns exactly 0.50 on an empty
table, on a missing key, and on a lookup error (a cell `float(...)` rejects);
when the classifier artifact is null the pipeline result is the fallback
probability (clamped) and its bucket is exactly the fallback's bucket; with
classifier absent and the table empty the scored probability is exactly 0.50
and the risk level Medium. -/
theorem C4_confirmed (a : Main.Artifacts) (gnn_df : Main.FallbackTable)
    (name doc address dtype s : String)
    (hm : a.model = none) :
    (Main.predict_fraud a gnn_df name doc address dtype).risk_level
      = Main.classify (Main.gnn_pred gnn_df doc)
    ∧ Main.predict_prob a gnn_df name doc address dtype
      = max 0 (min 1 (Main.gnn_pred gnn_df doc))
    ∧ (gnn_df = [] →
        Main.gnn_pred gnn_df doc = 1/2
        ∧ Main.predict_prob a gnn_df name doc address dtype = 1/2
        ∧ (Main.predict_fraud a gnn_df name doc address dtype).risk_level = Risk.Medium)
    ∧ (gnn_df.find? (fun row => row.1 == doc) = none → Main.gnn_pred gnn_df doc = 1/2)
    ∧ (gnn_df.find? (fun row => row.1 == doc) = some (s, none) → Main.gnn_pred gnn_df doc = 1/2) := by
  have hraw : Main.predict_raw a gnn_df name doc address dtype = Main.gnn_pred gnn_df doc := by
    unfold Main.predict_raw
    rw [hm]
  have hprob : Main.predict_prob a gnn_df name doc address dtype
      = max 0 (min 1 (Main.gnn_pred gnn_df doc)) := by
    unfold Main.predict_prob
    rw [hraw]
  have hrisk : (Main.predict_fraud a gnn_df name doc address dtype).risk_level
      = Main.classify (Main.gnn_pred gnn_df doc) := by
    show Main.classify (Main.predict_prob a gnn_df name doc address dtype)
      = Main.classify (Main.gnn_pred gnn_df doc)
    rw [hprob, classify_clamp]
  refine ⟨hrisk, hprob, ?_, ?_, ?_⟩
  · intro he
    subst he
    have hg : Main.gnn_pred ([] : Main.FallbackTable) doc = 1/2 := rfl
    refine ⟨hg, ?_, ?_⟩
    · rw [hprob, hg]
      norm_num
    · rw [hrisk, hg]
      exact (classify_eq_medium _).mpr (by norm_num)
  · intro hfind
    by_cases he : gnn_df.isEmpty <;> simp [Main.gnn_pred, he, hfind]
  · intro hfind
    by_cases he : gnn_df.isEmpty <;> simp [Main.gnn_pred, he, hfind]

/-- C4 witness: classifier absent and empty fallback table, concretely. -/
theorem C4_confirmed_witness :
    Main.gnn_pred ([] : Main.FallbackTable) "123456789" = 1/2
    ∧ Main.predict_prob ⟨some (fun X => some X), none, none⟩ [] "Jane" "123456789" "456 Oak Ave" "AADHAR" = 1/2
    ∧ (Main.predict_fraud ⟨some (fun X => some X), none, none⟩ [] "Jane" "123456789" "456 Oak Ave" "AADHAR").risk_level = Risk.Medium := by
  have h := C4_confirmed ⟨some (fun X => some X), none, none⟩ [] "Jane" "123456789" "456 Oak Ave" "AADHAR" "" rfl
  exact ⟨(h.2.2.1 rfl).1, (h.2.2.1 rfl).2.1, (h.2.2.1 rfl).2.2⟩

/-- C5: each transform stage is a no-op when its artifact is absent, carries
the pre-stage vector forward unchanged when its `transform` raises, applies
the artifact's output when it succeeds, the two stages are applied selector
first and scaler second, and a transform failure never prevents the pipeline
from returning a result. -/
theorem C5_confirmed (a : Main.Artifacts) (gnn_df : Main.FallbackTable)
    (X Y : List ℚ) (f g : Main.Transform)
    (name doc address dtype : String)
    (hf : f X = none) (hg : g X = some Y) :
    Main.transformed a X = Main.applyStage a.scaler (Main.applyStage a.feature_selector X)
    ∧ Main.applyStage none X = X
    ∧ Main.applyStage (some f) X = X
    ∧ Main.applyStage (some g) X = Y
    ∧ (Main.predict_fraudReq a gnn_df ⟨name, doc, some address, dtype⟩).isSome = true := by
  refine ⟨rfl, rfl, ?_, ?_, rfl⟩
  · simp [Main.applyStage, hf]
  · simp [Main.applyStage, hg]

/-- C5 witness: a raising selector and a succeeding scaler, concretely. -/
theorem C5_confirmed_witness :
    Main.applyStage (some (fun _ => none)) [(1 : ℚ)] = [(1 : ℚ)]
    ∧ Main.applyStage (some (fun _ => some [(5 : ℚ)])) [(1 : ℚ)] = [(5 : ℚ)]
    ∧ (Main.predict_fraudReq ⟨some (fun _ => none), some (fun _ => some [(5 : ℚ)]), none⟩ []
        ⟨"John Doe", "123456789", some "123 Main St", "PASSPORT"⟩).isSome = true := by
  have h := C5_confirmed ⟨some (fun _ => none), some (fun _ => some [(5 : ℚ)]), none⟩ []
    [(1 : ℚ)] [(5 : ℚ)] (fun _ => none) (fun _ => some [(5 : ℚ)])
    "John Doe" "123456789" "123 Main St" "PASSPORT" rfl rfl
  exact ⟨h.2.2.1, h.2.2.2.1, h.2.2.2.2⟩

/-- C6: shape resolution of the classifier's probability matrix — width 2
takes the second entry of the first row, width 1 takes the single entry, any
other (nonempty) width takes the last entry of the first row; and when the
classifier call and shape resolution succeed the pipeline's scored
probability is that entry, clamped. -/
theorem C6_confirmed (x y : ℚ) (r : List ℚ) (rows : List (List ℚ))
    (a : Main.Artifacts) (gnn_df : Main.FallbackTable)
    (name doc address dtype : String)
    (m : List ℚ → Option (List (List ℚ))) (mat : List (List ℚ)) (p : ℚ)
    (h3 : 2 < r.length)
    (hm : a.model = some m)
    (hcall : m (Main.transformed a (Main.featureVec name doc address dtype)) = some mat)
    (hres : Main.resolveProba mat = some p) :
    Main.resolveProba ([x, y] :: rows) = some y
    ∧ Main.resolveProba ([x] :: rows) = some x
    ∧ Main.resolveProba (r :: rows) = r.getLast?
    ∧ (r.getLast?).isSome = true
    ∧ Main.predict_prob a gnn_df name doc address dtype = max 0 (min 1 p) := by
  have hcons : r ≠ [] := by
    intro h
    rw [h] at h3
    simp at h3
  refine ⟨rfl, rfl, ?_, ?_, ?_⟩
  · simp only [Main.resolveProba]
    rw [if_neg (by omega), if_neg (by omega)]
  · cases r with
    | nil => exact absurd rfl hcons
    | cons hd tl => simp [List.getLast?_isSome]
  · simp only [Main.predict_prob, Main.predict_raw, hm, hcall, hres]

/-- C6 witness: a two-column matrix, and a pipeline scoring through a
three-column classifier stub. -/
theorem C6_confirmed_witness :
    Main.resolveProba [[(1 : ℚ)/4, 3/4]] = some (3/4)
    ∧ Main.predict_prob ⟨none, none, some (fun _ => some [[(1 : ℚ)/10, 2/10, 7/10]])⟩ []
        "John Doe" "123456789" "123 Main St" "PASSPORT" = max 0 (min 1 (7/10)) := by
  have h := C6_confirmed (1/4) (3/4) [(1 : ℚ), 2, 3, 4] []
    ⟨none, none, some (fun _ => some [[(1 : ℚ)/10, 2/10, 7/10]])⟩ []
    "John Doe" "123456789" "123 Main St" "PASSPORT"
    (fun _ => some [[(1 : ℚ)/10, 2/10, 7/10]]) [[(1 : ℚ)/10, 2/10, 7/10]] (7/10)
    (by norm_num) rfl rfl rfl
  exact ⟨h.1, h.2.2.2.2⟩

/-- C7: the probability the pipeline buckets is always the raw probability of
the chosen path (classifier or fallback) clamped by max(0.0, min(1.0, p)),
hence always in [0,1], and the risk level is computed from that clamped
value. -/
theorem C7_confirmed (a : Main.Artifacts) (gnn_df : Main.FallbackTable)
    (name doc address dtype : String) :
    Main.predict_prob a gnn_df name doc address dtype
      = max 0 (min 1 (Main.predict_raw a gnn_df name doc address dtype))
    ∧ 0 ≤ Main.predict_prob a gnn_df name doc address dtype
    ∧ Main.predict_prob a gnn_df name doc address dtype ≤ 1
    ∧ (Main.predict_fraud a gnn_df name doc address dtype).risk_level
      = Main.classify (Main.predict_prob a gnn_df name doc address dtype) :=
  ⟨rfl, clamp_nonneg _, clamp_le_one _, rfl⟩

/-- C1 counterexample: the prediction core of `predict.py` is not infallible —
with the classifier artifact absent, `run_model_prediction` raises
`ValueError` instead of returning a result (the inputs are its own default
arguments). -/
theorem C1_counterexample :
    Predict.run_model_prediction none none none
        "Test User" "123456789" "Sample address 123" "AADHAR"
      = Except.error "Model not loaded. Please ensure best_model.pkl exists." := rfl

/-- C1 (amended): `main.predict_fraud` and the `main.verify` endpoint always
return a ScoringResult for requests with non-null string fields, whatever the
artifacts, fallback table, or their failures do, and an audit-write failure
does not change the response; but `predict.run_model_prediction` is an
exception-surfacing entry point: it raises whenever the classifier artifact
is absent, and a selector/scaler failure propagates out of it. -/
theorem C1_amended (a : Main.Artifacts) (gnn_df : Main.FallbackTable)
    (req : Main.VerificationRequest)
    (name doc address dtype : String) (b1 b2 : Bool)
    (mP : Predict.PModel) (sel : Main.Transform) (sca : Option Main.Transform)
    (hsel : sel (Predict.featureVec name doc address dtype) = none) :
    (Main.predict_fraudReq a gnn_df ⟨name, doc, some address, dtype⟩).isSome = true
    ∧ (Main.verify a gnn_df ⟨name, doc, some address, dtype⟩ b1).isSome = true
    ∧ Main.verify a gnn_df req b1 = Main.verify a gnn_df req b2
    ∧ (∀ selO scaO : Option Main.Transform, ∃ msg,
        Predict.run_model_prediction none selO scaO name doc address dtype
          = Except.error msg)
    ∧ (∃ msg, Predict.run_model_prediction (some mP) (some sel) sca name doc address dtype
        = Except.error msg) := by
  refine ⟨rfl, rfl, rfl, ?_, ?_⟩
  · intro selO scaO
    unfold Predict.run_model_prediction
    split
    · exact ⟨_, rfl⟩
    · split
      · exact ⟨_, rfl⟩
      · exact ⟨_, rfl⟩
  · unfold Predict.run_model_prediction
    have hlift : Predict.liftStage (some sel) (Predict.featureVec name doc address dtype)
        = Except.error "transform raised" := by
      simp [Predict.liftStage, hsel]
    rw [hlift]
    exact ⟨"transform raised", rfl⟩

/-- C1 witness: concrete instances — the main pipeline returns a result with
no artifacts at all, while both failure modes of `run_model_prediction`
surface errors. -/
theorem C1_amended_witness :
    (Main.predict_fraudReq ⟨none, none, none⟩ []
        ⟨"John Doe", "123456789", some "123 Main St", "PASSPORT"⟩).isSome = true
    ∧ (∃ msg, Predict.run_model_prediction none none none
        "John Doe" "123456789" "123 Main St" "PASSPORT" = Except.error msg)
    ∧ (∃ msg, Predict.run_model_prediction
        (some ⟨true, fun _ => some [[1/2, 1/2]], fun _ => some [0]⟩)
        (some (fun _ => none)) none
        "John Doe" "123456789" "123 Main St" "PASSPORT" = Except.error msg) := by
  have h := C1_amended ⟨none, none, none⟩ []
    ⟨"John Doe", "123456789", some "123 Main St", "PASSPORT"⟩
    "John Doe" "123456789" "123 Main St" "PASSPORT" true false
    ⟨true, fun _ => some [[1/2, 1/2]], fun _ => some [0]⟩ (fun _ => none) none rfl
  exact ⟨h.1, h.2.2.2.1 none none, h.2.2.2.2⟩

/-- C3 counterexample: the record returned by `main.predict_fraud` carries
probability and confidence on the percent scale — for the no-artifact,
empty-table request both are 50.0, so the returned probability is not in
[0,1]. -/
theorem C3_counterexample :
    (Main.predict_fraud ⟨none, none, none⟩ [] "John Doe" "123456789" "123 Main St" "PASSPORT").fraud_probability = 50
    ∧ ¬ (Main.predict_fraud ⟨none, none, none⟩ [] "John Doe" "123456789" "123 Main St" "PASSPORT").fraud_probability ≤ 1
    ∧ (Main.predict_fraud ⟨none, none, none⟩ [] "John Doe" "123456789" "123 Main St" "PASSPORT").confidence = 50 := by
  have hraw : Main.predict_raw ⟨none, none, none⟩ [] "John Doe" "123456789" "123 Main St" "PASSPORT" = 1/2 := rfl
  have hprob : Main.predict_prob ⟨none, none, none⟩ [] "John Doe" "123456789" "123 Main St" "PASSPORT" = 1/2 := by
    unfold Main.predict_prob
    rw [hraw]
    norm_num
  refine ⟨?_, ?_, ?_⟩
  · show Main.predict_prob ⟨none, none, none⟩ [] "John Doe" "123456789" "123 Main St" "PASSPORT" * 100 = 50
    rw [hprob]
    norm_num
  · show ¬ Main.predict_prob ⟨none, none, none⟩ [] "John Doe" "123456789" "123 Main St" "PASSPORT" * 100 ≤ 1
    rw [hprob]
    norm_num
  · show (1 - Main.predict_prob ⟨none, none, none⟩ [] "John Doe" "123456789" "123 Main St" "PASSPORT") * 100 = 50
    rw [hprob]
    norm_num

/-- C3 (amended): the returned ScoringResult carries probability and
confidence on the percent scale: probability ∈ [0,100] (equal to 100 times
the clamped internal probability, which is in [0,1]), confidence =
100 − probability (so confidence ∈ [0,100]), and status is Flagged iff
riskLevel is High. -/
theorem C3_amended (a : Main.Artifacts) (gnn_df : Main.FallbackTable)
    (name doc address dtype : String) :
    0 ≤ (Main.predict_fraud a gnn_df name doc address dtype).fraud_probability
    ∧ (Main.predict_fraud a gnn_df name doc address dtype).fraud_probability ≤ 100
    ∧ (Main.predict_fraud a gnn_df name doc address dtype).confidence
      = 100 - (Main.predict_fraud a gnn_df name doc address dtype).fraud_probability
    ∧ 0 ≤ (Main.predict_fraud a gnn_df name doc address dtype).confidence
    ∧ (Main.predict_fraud a gnn_df name doc address dtype).confidence ≤ 100
    ∧ ((Main.predict_fraud a gnn_df name doc address dtype).status = Status.Flagged
        ↔ (Main.predict_fraud a gnn_df name doc address dtype).risk_level = Risk.High)
    ∧ (Main.predict_fraud a gnn_df name doc address dtype).fraud_probability
      = 100 * Main.predict_prob a gnn_df name doc address dtype := by
  have h0 : 0 ≤ Main.predict_prob a gnn_df name doc address dtype := clamp_nonneg _
  have h1 : Main.predict_prob a gnn_df name doc address dtype ≤ 1 := clamp_le_one _
  have hfp : (Main.predict_fraud a gnn_df name doc address dtype).fraud_probability
      = Main.predict_prob a gnn_df name doc address dtype * 100 := rfl
  have hcf : (Main.predict_fraud a gnn_df name doc address dtype).confidence
      = (1 - Main.predict_prob a gnn_df name doc address dtype) * 100 := rfl
  have hrl : (Main.predict_fraud a gnn_df name doc address dtype).risk_level
      = Main.classify (Main.predict_prob a gnn_df name doc address dtype) := rfl
  have hst : (Main.predict_fraud a gnn_df name doc address dtype).status
      = (if Main.classify (Main.predict_prob a gnn_df name doc address dtype) = Risk.High
          then Status.Flagged else Status.Verified) := rfl
  refine ⟨?_, ?_, ?_, ?_, ?_, ?_, ?_⟩
  · rw [hfp]; linarith
  · rw [hfp]; linarith
  · rw [hcf, hfp]; ring
  · rw [hcf]; linarith
  · rw [hcf]; linarith
  · rw [hst, hrl]
    by_cases hc : Main.classify (Main.predict_prob a gnn_df name doc address dtype) = Risk.High
    · simp [hc]
    · simp [hc]
  · rw [hfp]; ring

/-- C10: the request model admits an explicitly null address, and for every
such request feature extraction — and hence the pipeline and the verify
endpoint — raises instead of returning a result; with any non-null address
the pipeline always returns a result. -/
theorem C10_confirmed (a : Main.Artifacts) (gnn_df : Main.FallbackTable)
    (name doc dtype : String) (b : Bool) :
    Main.extract_featuresReq name doc none dtype = none
    ∧ Main.predict_fraudReq a gnn_df ⟨name, doc, none, dtype⟩ = none
    ∧ Main.verify a gnn_df ⟨name, doc, none, dtype⟩ b = none
    ∧ ∀ address, (Main.predict_fraudReq a gnn_df ⟨name, doc, some address, dtype⟩).isSome = true :=
  ⟨rfl, rfl, rfl, fun _ => rfl⟩
